import Mathlib

/-!
Verification development for the client-side reconnecting WebSocket helper
(`src/client/src/lib/websocket.ts`).

The module-level mutable state of the source file (`socket`, `reconnectAttempts`,
`maxReconnectAttempts`, `reconnectTimer`, `isReconnecting`, plus the per-call
`connectionTimeout` captured by each socket's handlers) is embedded as the
structure `WSState`.  Each handler and exported function of the source becomes a
pure state-transition function returning the new state together with the list of
observable actions it performed (socket creation, event dispatch, console logs,
outgoing frames).  Fallible operations (`JSON.parse`, `JSON.stringify`,
`new WebSocket`, `socket.close`) are embedded as `Except`-valued inputs or
boolean throw-flags, and `Math.random()` is an explicit rational argument
`r ∈ [0,1)` supplied by the environment.  The browser event loop is modelled by
the `step` function over an `Event` type; timers live in `pendingTimers` and
fire as environment-chosen events.
-/

namespace WSClient

/-- JSON values, the result of a successful `JSON.parse`. -/
inductive Json where
  | null : Json
  | bool (b : Bool) : Json
  | num (q : ℚ) : Json
  | str (s : String) : Json
  | arr (xs : List Json) : Json
  | obj (fields : List (String × Json)) : Json

/-- Property access `j.k` in JS: on an object, the named field (or `undefined`,
here `none`); on any other non-null value, `undefined`. Access on `null` throws
and is handled separately in `onmessageData`. -/
def lookupField (j : Json) (k : String) : Option Json :=
  match j with
  | .obj fields => (fields.find? (fun p => p.1 == k)).map (fun p => p.2)
  | _ => none

/-- Strict equality `x === "s"` between a possibly-undefined JS value and a
string literal: true only for a string with the same content. -/
def typeIs (t : Option Json) (s : String) : Bool :=
  match t with
  | some (.str x) => x == s
  | _ => false

/-- A value handed to `sendWSMessage`; `circular` stands for any value on which
`JSON.stringify` throws (circular structure, BigInt, ...). -/
inductive Payload where
  | val (j : Json) : Payload
  | circular : Payload

/-- `JSON.stringify({ type, payload })`: throws iff the payload is
unserializable, otherwise produces the wire object. -/
def stringifyMessage (type : String) (p : Payload) : Except Unit Json :=
  match p with
  | .circular => .error ()
  | .val j => .ok (.obj [("type", .str type), ("payload", j)])

/-- `WebSocket.readyState` values. -/
inductive Ready where
  | CONNECTING : Ready
  | OPEN : Ready
  | CLOSING : Ready
  | CLOSED : Ready
deriving DecidableEq, Repr

/-- One `WebSocket` object: its identity, ready state, target URL, and the id of
the `connectionTimeout` timer captured by the handlers attached to it. -/
structure Sock where
  id : ℕ
  ready : Ready
  url : String
  ctId : ℕ
deriving DecidableEq, Repr

/-- The kind of a manager-owned timer. -/
inductive TimerKind where
  | reconnect : TimerKind
  | connTimeout : TimerKind
deriving DecidableEq, Repr

/-- A pending `setTimeout` callback: id, delay in milliseconds, kind. -/
structure Timer where
  id : ℕ
  delay : ℚ
  kind : TimerKind
deriving DecidableEq, Repr

/-- The module-level state of `websocket.ts`, plus bookkeeping for sockets whose
handlers are still alive after being replaced (`orphans`), the set of armed
timers (`pendingTimers`), a fresh-id counter, and the page location. -/
structure WSState where
  socket : Option Sock
  orphans : List Sock
  reconnectAttempts : ℕ
  reconnectTimer : Option ℕ
  isReconnecting : Bool
  pendingTimers : List Timer
  nextId : ℕ
  secure : Bool
  host : String

/-- `maxReconnectAttempts = 10`. -/
def maxReconnectAttempts : ℕ := 10

/-- Observable actions performed by a transition. -/
inductive Action where
  | newConnection (url : String) : Action
  | notify (name : String) (detail : Option Json) : Action
  | wsSend (msg : Json) : Action
  | log (what : String) : Action
  | threw : Action

/-- Whether an action is the creation of a new socket (`new WebSocket(url)`). -/
def isNewConnection (a : Action) : Bool :=
  match a with
  | .newConnection _ => true
  | _ => false

/-- Whether an action is an event dispatch (`window.dispatchEvent`). -/
def isNotify (a : Action) : Bool :=
  match a with
  | .notify _ _ => true
  | _ => false

/-- `const delay = Math.min(1000 * Math.pow(1.5, reconnectAttempts) +
Math.random() * 1000, 30000)`, with the `Math.random()` sample `r` explicit. -/
def delay (n : ℕ) (r : ℚ) : ℚ :=
  min (1000 * (3/2 : ℚ) ^ n + r * 1000) 30000

/-- `socket && socket.readyState === WebSocket.OPEN`. -/
def isSocketOpen (s : WSState) : Bool :=
  match s.socket with
  | some c => c.ready == Ready.OPEN
  | none => false

/-- `socket && (socket.readyState === OPEN || socket.readyState === CONNECTING)`. -/
def socketOpenOrConnecting (s : WSState) : Bool :=
  match s.socket with
  | some c => c.ready == Ready.OPEN || c.ready == Ready.CONNECTING
  | none => false

/-- `function scheduleReconnect()`: give up past `maxReconnectAttempts`
(resetting `isReconnecting`); otherwise clear any existing reconnect timer,
compute the backoff delay from the current attempt count and the
`Math.random()` sample `r`, increment the counter and arm a new timer that will
call `createWSConnection(true)`. -/
def scheduleReconnect (r : ℚ) (s : WSState) : WSState × List Action :=
  if maxReconnectAttempts ≤ s.reconnectAttempts then
    ({ s with isReconnecting := false }, [.log "max attempts reached, giving up"])
  else
    let s1 :=
      match s.reconnectTimer with
      | some tid => { s with pendingTimers := s.pendingTimers.filter (fun t => t.id != tid) }
      | none => s
    let d := delay s1.reconnectAttempts r
    ({ s1 with
        reconnectAttempts := s1.reconnectAttempts + 1
        reconnectTimer := some s1.nextId
        pendingTimers := { id := s1.nextId, delay := d, kind := .reconnect } :: s1.pendingTimers
        nextId := s1.nextId + 1 },
     [.log "scheduling reconnect"])

/-- The `if (socket) { try { if not CLOSED/CLOSING then socket.close() } catch }`
block at the start of the connect body.  `closeThrows` selects the catch
branch; `close()` on a CONNECTING or OPEN socket moves it to CLOSING. -/
def closeCurrent (closeThrows : Bool) (s : WSState) : WSState × List Action :=
  match s.socket with
  | none => (s, [])
  | some c =>
    if c.ready == Ready.CLOSED || c.ready == Ready.CLOSING then (s, [])
    else if closeThrows then (s, [.log "error closing existing socket"])
    else ({ s with socket := some { c with ready := Ready.CLOSING } }, [])

/-- The connection URL: secure scheme iff the page is served over https. -/
def wsUrl (secure : Bool) (host : String) : String :=
  (if secure then "wss:" else "ws:") ++ "//" ++ host ++ "/ws"

/-- `export function createWSConnection(force = false)`.  The two early-return
guards, then the outer try block: close the existing socket, set
`isReconnecting`, construct the new socket (throw-flag `ctorThrows`; the catch
branch logs and calls `scheduleReconnect`), and arm the 10-second connection
timeout.  The replaced socket keeps its handlers alive as an orphan.  The
result is `.ok` on every path because every throwing operation is guarded by a
catch; an `.error` result would mean an exception escaping to the caller. -/
def createWSConnection (force ctorThrows closeThrows : Bool) (r : ℚ) (s : WSState) :
    Except Unit (WSState × List Action) :=
  if s.isReconnecting && !force then .ok (s, [])
  else if socketOpenOrConnecting s && !force then .ok (s, [])
  else
    let p1 := closeCurrent closeThrows s
    let s2 := { p1.1 with isReconnecting := true }
    if ctorThrows then
      let p3 := scheduleReconnect r s2
      .ok (p3.1, p1.2 ++ [.log "failed to create WebSocket connection"] ++ p3.2)
    else
      let url := wsUrl s2.secure s2.host
      let newSock : Sock := { id := s2.nextId, ready := .CONNECTING, url := url, ctId := s2.nextId + 1 }
      let s3 := { s2 with
        socket := some newSock
        orphans := (match s2.socket with | some old => old :: s2.orphans | none => s2.orphans)
        pendingTimers := { id := s2.nextId + 1, delay := 10000, kind := .connTimeout } :: s2.pendingTimers
        nextId := s2.nextId + 2 }
      .ok (s3, p1.2 ++ [.newConnection url])

/-- `createWSConnection` with no environment-injected throws, totalized (the
`.error` case is unreachable, see `C6_no_throw`). -/
def createWS (force : Bool) (r : ℚ) (s : WSState) : WSState × List Action :=
  match createWSConnection force false false r s with
  | .ok o => o
  | .error _ => (s, [.threw])

/-- `export function sendWSMessage(type, payload)`: serialize and transmit when
the socket is open, otherwise warn and drop.  The serialization is not wrapped
in any try/catch, so its exception propagates (`.error`). -/
def sendWSMessage (type : String) (p : Payload) (s : WSState) :
    Except Unit (WSState × List Action) :=
  if isSocketOpen s then
    match stringifyMessage type p with
    | .error e => .error e
    | .ok msg => .ok (s, [.wsSend msg])
  else
    .ok (s, [.log "WebSocket not connected, cannot send message"])

/-- Body of the `socket.onmessage` try block after `JSON.parse` succeeded:
property access `data.type` throws on `null`, then the two strict string
comparisons select the event to dispatch with `data.payload` as detail. -/
def onmessageData (data : Json) : Except Unit (List Action) :=
  match data with
  | .null => .error ()
  | _ =>
    if typeIs (lookupField data "type") "dice_roll" then
      .ok [.notify "dice_roll_result" (lookupField data "payload")]
    else if typeIs (lookupField data "type") "campaign_update" then
      .ok [.notify "campaign_update" (lookupField data "payload")]
    else
      .ok []

/-- `socket.onmessage` handler: `JSON.parse` outcome as input; the catch branch
logs the parsing error and drops the message. -/
def handleMessage (raw : Except Unit Json) : List Action :=
  match raw with
  | .error _ => [.log "error parsing WebSocket message"]
  | .ok data =>
    match onmessageData data with
    | .error _ => [.log "error parsing WebSocket message"]
    | .ok acts => acts

/-- `socket.onopen` for socket `sid`: only the current CONNECTING socket can
open.  Clears that socket's connection timeout, resets the attempt counter and
`isReconnecting`, and clears any pending reconnect timer. -/
def onopenStep (sid : ℕ) (s : WSState) : WSState × List Action :=
  match s.socket with
  | some c =>
    if c.id = sid ∧ c.ready = Ready.CONNECTING then
      let s1 := { s with
        socket := some { c with ready := Ready.OPEN }
        pendingTimers := s.pendingTimers.filter (fun t => t.id != c.ctId)
        reconnectAttempts := 0
        isReconnecting := false }
      let s2 :=
        match s1.reconnectTimer with
        | some tid =>
          { s1 with
              pendingTimers := s1.pendingTimers.filter (fun t => t.id != tid)
              reconnectTimer := none }
        | none => s1
      (s2, [.log "WebSocket connection established"])
    else (s, [])
  | none => (s, [])

/-- Tail of the `socket.onclose` handler, after `clearTimeout(connectionTimeout)`:
reconnect on any close code other than 1000, otherwise reset the manager. -/
def closeHandler (code : ℕ) (r : ℚ) (s1 : WSState) : WSState × List Action :=
  if code ≠ 1000 then
    let p := scheduleReconnect r s1
    (p.1, .log "WebSocket connection closed" :: p.2)
  else
    ({ s1 with isReconnecting := false, reconnectAttempts := 0 },
     [.log "WebSocket connection closed"])

/-- `socket.onclose` firing for socket `sid` with the given close code: the
socket (current or orphan, not already CLOSED) becomes CLOSED, its captured
connection timeout is cleared, then `closeHandler` runs. -/
def oncloseStep (sid : ℕ) (code : ℕ) (r : ℚ) (s : WSState) : WSState × List Action :=
  match s.socket with
  | some c =>
    if c.id = sid then
      if c.ready = Ready.CLOSED then (s, [])
      else
        closeHandler code r
          { s with
              socket := some { c with ready := Ready.CLOSED }
              pendingTimers := s.pendingTimers.filter (fun t => t.id != c.ctId) }
    else
      match s.orphans.find? (fun o => o.id == sid && !(o.ready == Ready.CLOSED)) with
      | some o =>
        closeHandler code r
          { s with
              orphans := s.orphans.map (fun x => if x.id == sid then { x with ready := Ready.CLOSED } else x)
              pendingTimers := s.pendingTimers.filter (fun t => t.id != o.ctId) }
      | none => (s, [])
  | none =>
    match s.orphans.find? (fun o => o.id == sid && !(o.ready == Ready.CLOSED)) with
    | some o =>
      closeHandler code r
        { s with
            orphans := s.orphans.map (fun x => if x.id == sid then { x with ready := Ready.CLOSED } else x)
            pendingTimers := s.pendingTimers.filter (fun t => t.id != o.ctId) }
    | none => (s, [])

/-- The `connectionTimeout` callback: if the module-level `socket` exists and is
not OPEN, warn, close it (CONNECTING moves to CLOSING; `close()` on
CLOSING/CLOSED is a no-op) and call `scheduleReconnect`. -/
def connTimeoutFire (r : ℚ) (s : WSState) : WSState × List Action :=
  match s.socket with
  | some c =>
    if c.ready = Ready.OPEN then (s, [])
    else
      let s1 := { s with
        socket := some { c with ready := if c.ready = Ready.CONNECTING then Ready.CLOSING else c.ready } }
      let p := scheduleReconnect r s1
      (p.1, .log "WebSocket connection timeout" :: p.2)
  | none => (s, [])

/-- Environment events delivered by the browser event loop: external calls to
the two exported functions, socket events, and timer expirations.  Rational
arguments are the `Math.random()` samples consumed if the handler schedules a
reconnect. -/
inductive Event where
  | connectCall (force : Bool) (r : ℚ) : Event
  | sockOpen (sid : ℕ) : Event
  | sockClose (sid : ℕ) (code : ℕ) (r : ℚ) : Event
  | sockMessage (raw : Except Unit Json) : Event
  | sockError : Event
  | timerFire (tid : ℕ) (r : ℚ) : Event
  | sendCall (type : String) (p : Payload) : Event

/-- One step of the event loop.  A timer can only fire while pending, and is
removed from the pending set when it does; the `reconnectTimer` variable keeps
its stale id, exactly as in the source.  A message is only delivered on an open
socket. -/
def step (s : WSState) (e : Event) : WSState × List Action :=
  match e with
  | .connectCall force r => createWS force r s
  | .sockOpen sid => onopenStep sid s
  | .sockClose sid code r => oncloseStep sid code r s
  | .sockMessage raw => if isSocketOpen s then (s, handleMessage raw) else (s, [])
  | .sockError => (s, [.log "WebSocket error"])
  | .timerFire tid r =>
    match s.pendingTimers.find? (fun t => t.id == tid) with
    | some t =>
      let s1 := { s with pendingTimers := s.pendingTimers.filter (fun x => x.id != tid) }
      match t.kind with
      | .connTimeout => connTimeoutFire r s1
      | .reconnect =>
        let p := createWS true r s1
        (p.1, .log "attempting to reconnect" :: p.2)
    | none => (s, [])
  | .sendCall type p =>
    match sendWSMessage type p s with
    | .ok o => o
    | .error _ => (s, [.threw])

/-- Run a list of events, keeping only the final state. -/
def run (es : List Event) (s : WSState) : WSState :=
  es.foldl (fun st e => (step st e).1) s

/-- The initial module state: no socket, no timers, counter 0. -/
def init : WSState :=
  { socket := none, orphans := [], reconnectAttempts := 0, reconnectTimer := none
    isReconnecting := false, pendingTimers := [], nextId := 0
    secure := false, host := "example.com" }

/-- Whether a call returned normally (`.ok`) rather than letting an exception
escape to the caller (`.error`). -/
def isOk (x : Except Unit (WSState × List Action)) : Bool :=
  match x with
  | .ok _ => true
  | .error _ => false

/-- Every pending reconnect timer is the one recorded in `reconnectTimer` (so,
as long as timer ids are not reused, at most one reconnect timer is armed). -/
def ReconnectTimerOk (s : WSState) : Prop :=
  ∀ t ∈ s.pendingTimers, t.kind = TimerKind.reconnect → s.reconnectTimer = some t.id

/-- The state after a connection timeout fires and the close event caused by
its `socket.close()` is delivered with the given code: first the
`connectionTimeout` handler, then the `onclose` handler. -/
def timeoutThenClose (sid code : ℕ) (r1 r2 : ℚ) (s : WSState) : WSState :=
  (oncloseStep sid code r2 (connTimeoutFire r1 s).1).1

/-- A state whose reconnect budget is exhausted. -/
def sExhausted : WSState := { init with reconnectAttempts := 10 }

/-- An open socket with id 0 whose captured connection timeout has id 1. -/
def sockOpenEx : Sock :=
  { id := 0, ready := Ready.OPEN, url := "ws://example.com/ws", ctId := 1 }

/-- A state with an open current socket and a few failed attempts on record. -/
def sOpenEx : WSState :=
  { init with socket := some sockOpenEx, reconnectAttempts := 3, isReconnecting := true }

/-- An inbound dice-roll message as produced by `JSON.parse`. -/
def msgEx : Json := .obj [("type", .str "dice_roll"), ("payload", .num 7)]

/-- A state that is mid-reconnect. -/
def sReconEx : WSState := { init with isReconnecting := true }

/-- The state left behind after the reconnect budget is exhausted: ten failed
attempts, `isReconnecting` reset by the give-up branch, dead socket. -/
def sDeadEx : WSState :=
  { init with
    reconnectAttempts := 10
    socket := some { id := 30, ready := Ready.CLOSED, url := "ws://example.com/ws", ctId := 31 } }

/-- A freshly created connection attempt: CONNECTING socket with its 10-second
connection timeout armed (the state produced by `connectCall` from `init`). -/
def sockC10 : Sock :=
  { id := 0, ready := Ready.CONNECTING, url := "ws://example.com/ws", ctId := 1 }

/-- State holding `sockC10` just after `createWSConnection` armed its timeout. -/
def sC10 : WSState :=
  { init with
    socket := some sockC10
    isReconnecting := true
    pendingTimers := [{ id := 1, delay := 10000, kind := TimerKind.connTimeout }]
    nextId := 2 }

/-- Event trace: connect, open, forced reconnect, open again, then the orphaned
first socket closes abnormally (arming a reconnect timer) and finally the
server closes the live socket intentionally with code 1000. -/
def c3trace : List Event :=
  [.connectCall false 0, .sockOpen 0, .connectCall true 0, .sockOpen 2,
   .sockClose 0 1006 0, .sockClose 2 1000 0]

/-- Event trace: connect, connection timeout fires (arming a reconnect timer),
then an external forced connect while that reconnect timer is still pending. -/
def c8trace : List Event := [.connectCall false 0, .timerFire 1 0, .connectCall true 0]

/-- Event trace exhausting the reconnect budget: an initial connect followed by
ten rounds of abnormal close and reconnect-timer expiry, and a final abnormal
close that makes `scheduleReconnect` give up. -/
def c9trace : List Event :=
  [.connectCall false 0] ++
  ((List.range 10).flatMap (fun k => [.sockClose (3*k) 1006 0, .timerFire (3*k+2) 0])) ++
  [.sockClose 30 1006 0]

/-- Prefix of `c9trace` reaching nine failed attempts with the tenth connection
attempt in flight (CONNECTING socket id 27, connection timeout id 28). -/
def c10pre : List Event :=
  [.connectCall false 0] ++
  ((List.range 9).flatMap (fun k => [.sockClose (3*k) 1006 0, .timerFire (3*k+2) 0]))

/-- Helper: the give-up branch of `scheduleReconnect` only resets
`isReconnecting`. -/
theorem scheduleReconnect_giveUp (r : ℚ) (s : WSState)
    (h : maxReconnectAttempts ≤ s.reconnectAttempts) :
    scheduleReconnect r s =
      ({ s with isReconnecting := false }, [.log "max attempts reached, giving up"]) := by
  rw [scheduleReconnect, if_pos h]

/-- Helper: when the existing socket is absent or already CLOSING/CLOSED, the
close-existing-socket block does nothing. -/
theorem closeCurrent_noop (s : WSState) (h : socketOpenOrConnecting s = false) :
    closeCurrent false s = (s, []) := by
  rcases hs : s.socket with _ | c
  · simp [closeCurrent, hs]
  · rw [socketOpenOrConnecting, hs] at h
    rcases c with ⟨cid, cready, curl, cct⟩
    cases cready <;> simp_all [closeCurrent, hs]

/-- Helper: an unguarded non-forced connect replaces the socket, orphans the
old one, arms the 10-second connection timeout and reports the new URL. -/
theorem createWS_notGuarded (s : WSState) (r : ℚ) (h1 : s.isReconnecting = false)
    (h2 : socketOpenOrConnecting s = false) :
    createWS false r s =
      ({ s with
          socket := some { id := s.nextId, ready := Ready.CONNECTING,
                           url := wsUrl s.secure s.host, ctId := s.nextId + 1 }
          orphans := (match s.socket with | some old => old :: s.orphans | none => s.orphans)
          isReconnecting := true
          pendingTimers :=
            { id := s.nextId + 1, delay := 10000, kind := TimerKind.connTimeout } :: s.pendingTimers
          nextId := s.nextId + 2 },
       [.newConnection (wsUrl s.secure s.host)]) := by
  rw [createWS, createWSConnection]
  simp only [h1, h2, Bool.false_and, Bool.false_eq_true, if_false, closeCurrent_noop s h2,
    List.nil_append]

/-- Claim C1: for every reconnect-attempt count `n < 10` and every
`Math.random()` sample `r ∈ [0,1)`, the computed delay is at most 30000 ms,
lies in `[1000·1.5ⁿ, 1000·1.5ⁿ + 1000]` whenever that interval is below the
cap, and equals 30000 once `1000·1.5ⁿ` reaches the cap; in particular the
delay is within `[1000, 2000]` for `n = 0` and equals 30000 for `n = 9`. -/
theorem C1_delay_bounds (n : ℕ) (r : ℚ) (hn : n < 10) (h0 : 0 ≤ r) (h1 : r < 1) :
    delay n r ≤ 30000 ∧
    (1000 * (3/2 : ℚ) ^ n + 1000 ≤ 30000 →
      1000 * (3/2 : ℚ) ^ n ≤ delay n r ∧ delay n r ≤ 1000 * (3/2 : ℚ) ^ n + 1000) ∧
    ((30000 : ℚ) ≤ 1000 * (3/2 : ℚ) ^ n → delay n r = 30000) ∧
    (n = 0 → 1000 ≤ delay n r ∧ delay n r ≤ 2000) ∧
    (n = 9 → delay n r = 30000) := by
  have hr0 : (0 : ℚ) ≤ r * 1000 := by positivity
  have hr1 : r * 1000 < 1000 := by nlinarith
  refine ⟨min_le_right _ _, ?_, ?_, ?_, ?_⟩
  · intro h
    rw [delay, min_eq_left (by linarith)]
    constructor <;> linarith
  · intro h
    rw [delay, min_eq_right (by linarith)]
  · intro h
    subst h
    have hp : (1000 : ℚ) * (3/2 : ℚ) ^ (0 : ℕ) = 1000 := by norm_num
    rw [delay, min_eq_left (by rw [hp]; linarith)]
    rw [hp]
    constructor <;> linarith
  · intro h
    subst h
    have hp : (30000 : ℚ) ≤ 1000 * (3/2 : ℚ) ^ (9 : ℕ) := by norm_num
    rw [delay, min_eq_right (by linarith)]

/-- Witness for C1 at the cap: `n = 9`, `r = 1/2` gives exactly 30000 ms. -/
theorem C1_delay_witness : delay 9 (1/2) = 30000 :=
  (C1_delay_bounds 9 (1/2) (by norm_num) (by norm_num) (by norm_num)).2.2.2.2 rfl

/-- Claim C2: once the reconnect counter has reached the maximum of 10
attempts, `scheduleReconnect` arms no timer and performs no retry — it only
resets `isReconnecting` and logs that it is giving up; counter, timers and
socket are untouched. -/
theorem C2_giveUp_no_timer (s : WSState) (r : ℚ)
    (h : maxReconnectAttempts ≤ s.reconnectAttempts) :
    scheduleReconnect r s =
      ({ s with isReconnecting := false }, [.log "max attempts reached, giving up"]) :=
  scheduleReconnect_giveUp r s h

/-- Witness for C2 at a concrete exhausted state. -/
theorem C2_giveUp_witness :
    scheduleReconnect 0 sExhausted =
      ({ sExhausted with isReconnecting := false }, [.log "max attempts reached, giving up"]) :=
  C2_giveUp_no_timer sExhausted 0 (by decide)

/-- Claim C3, counterexample.  The claim says that after a close event with
code 1000 no reconnect attempt ever follows, "including from any previously
armed pending timer".  In the trace `c3trace` the orphaned first socket closes
abnormally while the replacement is open, arming reconnect timer 4; the final
event closes the open socket with code 1000, which resets the counter and the
flag but leaves timer 4 pending; when timer 4 fires, a new connection is
opened — a reconnect attempt follows the code-1000 close. -/
theorem C3_counterexample :
    (run c3trace init).reconnectAttempts = 0 ∧
    (run c3trace init).isReconnecting = false ∧
    (run c3trace init).pendingTimers.map (fun t => (t.id, t.kind)) =
      [(4, TimerKind.reconnect)] ∧
    (step (run c3trace init) (.timerFire 4 0)).2.any isNewConnection = true := by
  decide

/-- Claim C3, amended: on a close event with code 1000 for the current socket
the handler never calls `scheduleReconnect`, arms no timer, resets the
reconnect counter to 0 and clears `isReconnecting`; it clears only that
socket's connection timeout, so a previously armed pending reconnect timer is
left pending and may still fire a reconnect. -/
theorem C3_close1000_behavior (s : WSState) (c : Sock) (r : ℚ)
    (hc : s.socket = some c) (hr : c.ready ≠ Ready.CLOSED) :
    oncloseStep c.id 1000 r s =
      ({ s with
          socket := some { c with ready := Ready.CLOSED }
          pendingTimers := s.pendingTimers.filter (fun t => t.id != c.ctId)
          isReconnecting := false
          reconnectAttempts := 0 },
       [.log "WebSocket connection closed"]) := by
  rw [oncloseStep, hc]
  simp [hr, closeHandler]

/-- Witness for the amended C3 at a concrete open socket. -/
theorem C3_close1000_witness :
    oncloseStep sockOpenEx.id 1000 0 sOpenEx =
      ({ sOpenEx with
          socket := some { sockOpenEx with ready := Ready.CLOSED }
          pendingTimers := sOpenEx.pendingTimers.filter (fun t => t.id != sockOpenEx.ctId)
          isReconnecting := false
          reconnectAttempts := 0 },
       [.log "WebSocket connection closed"]) :=
  C3_close1000_behavior sOpenEx sockOpenEx 0 rfl (by decide)

/-- Claim C4: sending while the socket is absent or not OPEN never throws
(returns `.ok`), performs exactly one warning log, queues nothing, and leaves
the whole manager state (socket handle, counter, timers, `isReconnecting`)
unchanged. -/
theorem C4_send_disconnected (type : String) (p : Payload) (s : WSState)
    (h : isSocketOpen s = false) :
    sendWSMessage type p s = .ok (s, [.log "WebSocket not connected, cannot send message"]) := by
  simp [sendWSMessage, h]

/-- Witness for C4: sending from the initial (disconnected) state. -/
theorem C4_send_witness :
    sendWSMessage "dice_roll" (.val .null) init =
      .ok (init, [.log "WebSocket not connected, cannot send message"]) :=
  C4_send_disconnected "dice_roll" (.val .null) init rfl

/-- Claim C5: a parsed message with type `dice_roll` produces exactly one
`dice_roll_result` dispatch carrying its payload; type `campaign_update`
produces exactly one `campaign_update` dispatch carrying its payload; any
other parsed value produces no dispatch; a message whose parse throws is
logged and dropped with no dispatch; and a message event never changes the
manager state (the connection stays up). -/
theorem C5_dispatch (data : Json) :
    (lookupField data "type" = some (.str "dice_roll") →
        handleMessage (.ok data) = [.notify "dice_roll_result" (lookupField data "payload")]) ∧
    (lookupField data "type" = some (.str "campaign_update") →
        handleMessage (.ok data) = [.notify "campaign_update" (lookupField data "payload")]) ∧
    (typeIs (lookupField data "type") "dice_roll" = false →
      typeIs (lookupField data "type") "campaign_update" = false →
        (handleMessage (.ok data)).any isNotify = false) ∧
    (handleMessage (.error ()) = [.log "error parsing WebSocket message"]) ∧
    (∀ (s : WSState) (raw : Except Unit Json), (step s (.sockMessage raw)).1 = s) := by
  refine ⟨?_, ?_, ?_, rfl, ?_⟩
  · intro h
    rcases data with _ | b | q | x | xs | fields
    · simp [lookupField] at h
    · simp [lookupField] at h
    · simp [lookupField] at h
    · simp [lookupField] at h
    · simp [lookupField] at h
    · simp only [handleMessage, onmessageData, typeIs, h]
      simp
  · intro h
    rcases data with _ | b | q | x | xs | fields
    · simp [lookupField] at h
    · simp [lookupField] at h
    · simp [lookupField] at h
    · simp [lookupField] at h
    · simp [lookupField] at h
    · simp only [handleMessage, onmessageData, typeIs, h]
      simp
  · intro h1 h2
    rcases data with _ | b | q | x | xs | fields <;>
      simp [handleMessage, onmessageData, h1, h2, isNotify]
  · intro s raw
    cases h : isSocketOpen s <;> simp [step, h]

/-- Witness for C5 at the spec's example message
`(type dice_roll, payload 7)`. -/
theorem C5_dispatch_witness :
    handleMessage (.ok msgEx) = [.notify "dice_roll_result" (lookupField msgEx "payload")] :=
  (C5_dispatch msgEx).1 rfl

/-- Claim C6, counterexample.  The claim says `send` never propagates an
exception, with serialization errors caught.  `sendWSMessage` wraps nothing in
a try/catch, so with the socket open and a payload on which `JSON.stringify`
throws (a circular structure), the exception propagates to the caller
(`.error`). -/
theorem C6_counterexample :
    sendWSMessage "dice_roll" Payload.circular sOpenEx = .error () := rfl

/-- Claim C6, amended: `createWSConnection` never propagates an exception for
any combination of internal failures (socket close throwing, the `WebSocket`
constructor throwing); `sendWSMessage` never propagates when the socket is not
open, and never propagates for any serializable payload; only an
unserializable payload sent on an open socket escapes as an exception. -/
theorem C6_no_throw :
    (∀ (force ctorThrows closeThrows : Bool) (r : ℚ) (s : WSState),
        isOk (createWSConnection force ctorThrows closeThrows r s) = true) ∧
    (∀ (type : String) (p : Payload) (s : WSState), isSocketOpen s = false →
        isOk (sendWSMessage type p s) = true) ∧
    (∀ (type : String) (j : Json) (s : WSState),
        isOk (sendWSMessage type (.val j) s) = true) := by
  refine ⟨?_, ?_, ?_⟩
  · intro force ctorThrows closeThrows r s
    rw [createWSConnection]
    split
    · rfl
    split
    · rfl
    split <;> rfl
  · intro type p s h
    simp [sendWSMessage, h, isOk]
  · intro type j s
    cases h : isSocketOpen s <;> simp [sendWSMessage, h, isOk, stringifyMessage]

/-- Witness for the amended C6 at concrete inputs: a fresh connect, a send
while disconnected, and a serializable send on an open socket. -/
theorem C6_no_throw_witness :
    isOk (createWSConnection false false false 0 init) = true ∧
    isOk (sendWSMessage "chat" (.val .null) init) = true ∧
    isOk (sendWSMessage "chat" (.val .null) sOpenEx) = true :=
  ⟨C6_no_throw.1 false false false 0 init,
   C6_no_throw.2.1 "chat" (.val .null) init rfl,
   C6_no_throw.2.2 "chat" .null sOpenEx⟩

/-- Claim C7: `connect(force=false)` is a no-op (state and effects untouched)
when the manager is mid-reconnect or the existing socket is OPEN or
CONNECTING; otherwise it installs a fresh CONNECTING socket whose URL uses the
secure scheme iff the page is https, arms a 10000 ms connection timeout, marks
the manager as reconnecting, emits exactly the new-connection action, and the
replaced socket is orphaned in a non-open state (CLOSING or CLOSED). -/
theorem C7_connect_behavior (s : WSState) (r : ℚ) :
    ((s.isReconnecting = true ∨ socketOpenOrConnecting s = true) →
        createWS false r s = (s, [])) ∧
    (s.isReconnecting = false → socketOpenOrConnecting s = false →
        (createWS false r s).1.socket =
            some { id := s.nextId, ready := Ready.CONNECTING,
                   url := (if s.secure then "wss:" else "ws:") ++ "//" ++ s.host ++ "/ws",
                   ctId := s.nextId + 1 } ∧
        { id := s.nextId + 1, delay := (10000 : ℚ), kind := TimerKind.connTimeout } ∈
            (createWS false r s).1.pendingTimers ∧
        (createWS false r s).1.isReconnecting = true ∧
        (createWS false r s).2 = [.newConnection (wsUrl s.secure s.host)] ∧
        (∀ c : Sock, s.socket = some c →
            c ∈ (createWS false r s).1.orphans ∧
            (c.ready = Ready.CLOSING ∨ c.ready = Ready.CLOSED))) := by
  constructor
  · intro h
    rcases h with h | h
    · cases hs : socketOpenOrConnecting s <;> simp [createWS, createWSConnection, h, hs]
    · cases hr : s.isReconnecting <;> simp [createWS, createWSConnection, h, hr]
  · intro h1 h2
    rw [createWS_notGuarded s r h1 h2]
    refine ⟨by simp [wsUrl], by simp, rfl, rfl, ?_⟩
    intro c hc
    constructor
    · simp [hc]
    · rw [socketOpenOrConnecting, hc] at h2
      rcases c with ⟨cid, cready, curl, cct⟩
      cases cready <;> simp_all

/-- Witness for C7: the guarded no-op at a mid-reconnect state, and the fresh
socket installed when connecting from the initial state. -/
theorem C7_connect_witness :
    createWS false 0 sReconEx = (sReconEx, []) ∧
    (createWS false 0 init).1.socket =
      some { id := init.nextId, ready := Ready.CONNECTING,
             url := (if init.secure then "wss:" else "ws:") ++ "//" ++ init.host ++ "/ws",
             ctId := init.nextId + 1 } :=
  ⟨(C7_connect_behavior sReconEx 0).1 (Or.inl rfl),
   ((C7_connect_behavior init 0).2 rfl rfl).1⟩

/-- Claim C8, counterexample.  The claim says at most one manager timer is
ever outstanding because every arming path cancels the previous timer.  In
`c8trace` the connection timeout fires and arms a reconnect timer; a forced
connect then arms a new connection timeout without cancelling the pending
reconnect timer, leaving two timers outstanding simultaneously. -/
theorem C8_counterexample :
    (run c8trace init).pendingTimers.length = 2 ∧
    ((run c8trace init).pendingTimers.filter
        (fun t => t.kind == TimerKind.reconnect)).length = 1 ∧
    ((run c8trace init).pendingTimers.filter
        (fun t => t.kind == TimerKind.connTimeout)).length = 1 := by
  decide

/-- Claim C8, amended: `scheduleReconnect` does cancel the previously armed
reconnect timer before arming a new one — the invariant that every pending
reconnect timer is the recorded one is preserved — but `createWSConnection`
arms a connection timeout without cancelling a pending reconnect timer, so two
manager timers can be outstanding at once (see the counterexample). -/
theorem C8_reconnect_timer_unique (s : WSState) (r : ℚ) (h : ReconnectTimerOk s) :
    ReconnectTimerOk (scheduleReconnect r s).1 := by
  rw [scheduleReconnect]
  by_cases hm : maxReconnectAttempts ≤ s.reconnectAttempts
  · rw [if_pos hm]
    intro t ht hk
    exact h t ht hk
  · rw [if_neg hm]
    rcases hrt : s.reconnectTimer with _ | tid
    · simp only [hrt]
      intro t ht hk
      rcases List.mem_cons.mp ht with h1 | h1
      · subst h1; rfl
      · exact absurd (h t h1 hk) (by simp [hrt])
    · simp only [hrt]
      intro t ht hk
      rcases List.mem_cons.mp ht with h1 | h1
      · subst h1; rfl
      · rcases List.mem_filter.mp h1 with ⟨h2, h3⟩
        have := h t h2 hk
        rw [hrt] at this
        simp at h3
        exact absurd (Option.some.inj this).symm h3

/-- Witness for the amended C8 at the initial state (no timers pending). -/
theorem C8_unique_witness : ReconnectTimerOk (scheduleReconnect 0 init).1 :=
  C8_reconnect_timer_unique init 0 (by intro t ht hk; simp [init] at ht)

/-- Claim C9, counterexample.  The claim says that after the reconnect budget
is exhausted, `connect(force=false)` does not re-establish the connection.
`c9trace` exhausts the budget (counter 10, no pending timers, `isReconnecting`
reset by the give-up branch, socket CLOSED); a subsequent non-forced connect
call then passes both guards and opens a brand-new socket. -/
theorem C9_counterexample :
    (run c9trace init).reconnectAttempts = 10 ∧
    (run c9trace init).isReconnecting = false ∧
    (run c9trace init).pendingTimers = [] ∧
    (step (run c9trace init) (.connectCall false 0)).2.any isNewConnection = true := by
  decide

/-- Claim C9, amended: after the budget is exhausted the manager is idle on
its own — the give-up branch arms no timer, opens no socket and leaves the
counter at its cap — but any subsequent connect call re-establishes the
connection whether or not `force` is set, because giving up reset
`isReconnecting` and the dead socket is no longer OPEN or CONNECTING. -/
theorem C9_idle_until_connect (s : WSState) (r : ℚ) :
    (maxReconnectAttempts ≤ s.reconnectAttempts →
        (scheduleReconnect r s).1.pendingTimers = s.pendingTimers ∧
        (scheduleReconnect r s).1.socket = s.socket ∧
        (scheduleReconnect r s).2.any isNewConnection = false) ∧
    (s.isReconnecting = false → socketOpenOrConnecting s = false →
        (createWS false r s).2.any isNewConnection = true) := by
  constructor
  · intro h
    rw [scheduleReconnect_giveUp r s h]
    exact ⟨rfl, rfl, rfl⟩
  · intro h1 h2
    rw [createWS_notGuarded s r h1 h2]
    simp [isNewConnection]

/-- Witness for the amended C9 at a concrete exhausted state with a dead
socket. -/
theorem C9_idle_witness :
    ((scheduleReconnect 0 sDeadEx).1.pendingTimers = sDeadEx.pendingTimers ∧
     (scheduleReconnect 0 sDeadEx).1.socket = sDeadEx.socket ∧
     (scheduleReconnect 0 sDeadEx).2.any isNewConnection = false) ∧
    (createWS false 0 sDeadEx).2.any isNewConnection = true :=
  ⟨(C9_idle_until_connect sDeadEx 0).1 (by decide),
   (C9_idle_until_connect sDeadEx 0).2 rfl rfl⟩

/-- Claim C10, counterexample.  The claim says the timeout-then-close pair
always increments the counter by 2 and replaces the first timer with the
second.  After `c10pre` (nine failed attempts, tenth attempt in flight) the
connection timeout fires and the resulting close is delivered: the first
invocation raises the counter to 10 and arms timer 29, but the second
invocation hits the attempt cap and gives up, so the counter rises by 1 (not
2) and timer 29 is neither cancelled nor replaced — it stays pending. -/
theorem C10_counterexample :
    (run c10pre init).reconnectAttempts = 9 ∧
    (run (c10pre ++ [.timerFire 28 0, .sockClose 27 1006 0]) init).reconnectAttempts = 10 ∧
    (run (c10pre ++ [.timerFire 28 0, .sockClose 27 1006 0]) init).reconnectTimer = some 29 ∧
    (run (c10pre ++ [.timerFire 28 0, .sockClose 27 1006 0]) init).pendingTimers.map
        (fun t => (t.id, t.kind)) = [(29, TimerKind.reconnect)] := by
  decide

/-- Claim C10, amended: when the connection timeout fires on a CONNECTING
socket and the resulting non-1000 close is delivered, `scheduleReconnect` runs
twice; provided the counter was at most 8 beforehand, the counter increases
by exactly 2, the timer armed by the first invocation is cancelled, and the
reconnect timer armed by the second invocation replaces it.  At counter 9 the second invocation gives up instead
(see the counterexample). -/
theorem C10_double_schedule (s : WSState) (c : Sock) (code : ℕ) (r1 r2 : ℚ)
    (hc : s.socket = some c) (hcr : c.ready = Ready.CONNECTING)
    (ha : s.reconnectAttempts ≤ 8) (hcode : code ≠ 1000) :
    (timeoutThenClose c.id code r1 r2 s).reconnectAttempts = s.reconnectAttempts + 2 ∧
    (timeoutThenClose c.id code r1 r2 s).reconnectTimer = some (s.nextId + 1) ∧
    (∀ t ∈ (timeoutThenClose c.id code r1 r2 s).pendingTimers, t.id ≠ s.nextId) ∧
    (∃ t ∈ (timeoutThenClose c.id code r1 r2 s).pendingTimers,
        t.id = s.nextId + 1 ∧ t.kind = TimerKind.reconnect) := by
  have h10a : ¬ (maxReconnectAttempts ≤ s.reconnectAttempts) := by
    rw [maxReconnectAttempts]; omega
  have h10b : ¬ (maxReconnectAttempts ≤ s.reconnectAttempts + 1) := by
    rw [maxReconnectAttempts]; omega
  rcases s with ⟨sock, orph, att, rt, isr, pt, nid, sec, host⟩
  rcases c with ⟨cid, cready, curl, cct⟩
  dsimp only at hc hcr h10a h10b ⊢
  subst hc hcr
  rcases rt with _ | tid <;>
    refine ⟨?_, ?_, ?_, ?_⟩ <;>
      simp [timeoutThenClose, connTimeoutFire, scheduleReconnect, oncloseStep, closeHandler,
        h10a, h10b, hcode] <;>
    intros <;> assumption

/-- Witness for the amended C10 at the state of a first connection attempt
with its timeout pending, close code 1006. -/
theorem C10_double_witness :
    (timeoutThenClose sockC10.id 1006 0 0 sC10).reconnectAttempts =
        sC10.reconnectAttempts + 2 ∧
    (timeoutThenClose sockC10.id 1006 0 0 sC10).reconnectTimer = some (sC10.nextId + 1) ∧
    (∀ t ∈ (timeoutThenClose sockC10.id 1006 0 0 sC10).pendingTimers, t.id ≠ sC10.nextId) ∧
    (∃ t ∈ (timeoutThenClose sockC10.id 1006 0 0 sC10).pendingTimers,
        t.id = sC10.nextId + 1 ∧ t.kind = TimerKind.reconnect) :=
  C10_double_schedule sC10 sockC10 1006 0 0 rfl rfl (by decide) (by decide)

end WSClient
